import Mathlib

/-
Formal model of rmmvlt.py (RPG Maker MV Localization Thingy).

The Python source is shallowly embedded: pure functions become Lean
functions, dictionary and list mutation becomes explicit rebuilding of
the data structure, and code that can raise an exception returns Option
(none models a raised exception reaching the caller).  Machine words in
the hash computation are Nat reduced mod 2^32 at every step, matching
the 32-bit arithmetic of hashlib.
-/

/-! ## SHA-256, as used by hashlib.sha256 in generate_fingerprint -/

def M32 : Nat := 4294967296

def mask32 : Nat := 4294967295

def rotr32 (k x : Nat) : Nat := ((x >>> k) ||| (x <<< (32 - k))) % M32

def not32 (x : Nat) : Nat := Nat.xor x mask32

def ch32 (e f g : Nat) : Nat := Nat.xor (Nat.land e f) (Nat.land (not32 e) g)

def maj32 (a b c : Nat) : Nat :=
  Nat.xor (Nat.xor (Nat.land a b) (Nat.land a c)) (Nat.land b c)

def bigSig0 (x : Nat) : Nat := Nat.xor (Nat.xor (rotr32 2 x) (rotr32 13 x)) (rotr32 22 x)

def bigSig1 (x : Nat) : Nat := Nat.xor (Nat.xor (rotr32 6 x) (rotr32 11 x)) (rotr32 25 x)

def smallSig0 (x : Nat) : Nat := Nat.xor (Nat.xor (rotr32 7 x) (rotr32 18 x)) (x >>> 3)

def smallSig1 (x : Nat) : Nat := Nat.xor (Nat.xor (rotr32 17 x) (rotr32 19 x)) (x >>> 10)

/-- The 64 round constants of FIPS 180-4, written in decimal. -/
def sha256K : List Nat :=
  [1116352408, 1899447441, 3049323471, 3921009573,
   961987163, 1508970993, 2453635748, 2870763221,
   3624381080, 310598401, 607225278, 1426881987,
   1925078388, 2162078206, 2614888103, 3248222580,
   3835390401, 4022224774, 264347078, 604807628,
   770255983, 1249150122, 1555081692, 1996064986,
   2554220882, 2821834349, 2952996808, 3210313671,
   3336571891, 3584528711, 113926993, 338241895,
   666307205, 773529912, 1294757372, 1396182291,
   1695183700, 1986661051, 2177026350, 2456956037,
   2730485921, 2820302411, 3259730800, 3345764771,
   3516065817, 3600352804, 4094571909, 275423344,
   430227734, 506948616, 659060556, 883997877,
   958139571, 1322822218, 1537002063, 1747873779,
   1955562222, 2024104815, 2227730452, 2361852424,
   2428436474, 2756734187, 3204031479, 3329325298]

structure Sha256State where
  a : Nat
  b : Nat
  c : Nat
  d : Nat
  e : Nat
  f : Nat
  g : Nat
  h : Nat
deriving Repr, DecidableEq

/-- The initial hash value of FIPS 180-4, written in decimal. -/
def sha256Init : Sha256State :=
  ⟨1779033703, 3144134277, 1013904242, 2773480762,
   1359893119, 2600822924, 528734635, 1541459225⟩

def sha256Round (s : Sha256State) (w k : Nat) : Sha256State :=
  { a := (s.h + bigSig1 s.e + ch32 s.e s.f s.g + k + w + bigSig0 s.a + maj32 s.a s.b s.c) % M32
    b := s.a
    c := s.b
    d := s.c
    e := (s.d + s.h + bigSig1 s.e + ch32 s.e s.f s.g + k + w) % M32
    f := s.e
    g := s.f
    h := s.g }

def scheduleStep (ws : List Nat) : List Nat :=
  let n := ws.length
  ws ++ [(smallSig1 (ws.getD (n - 2) 0) + ws.getD (n - 7) 0
          + smallSig0 (ws.getD (n - 15) 0) + ws.getD (n - 16) 0) % M32]

def schedule (ws : List Nat) : List Nat :=
  (List.range 48).foldl (fun acc _ => scheduleStep acc) ws

def blockWords (bytes : List Nat) : List Nat :=
  (List.range 16).map (fun i =>
    (bytes.getD (4 * i) 0) <<< 24 + (bytes.getD (4 * i + 1) 0) <<< 16
    + (bytes.getD (4 * i + 2) 0) <<< 8 + bytes.getD (4 * i + 3) 0)

def sha256Compress (s : Sha256State) (block : List Nat) : Sha256State :=
  let ws := schedule (blockWords block)
  let t := (List.range 64).foldl (fun st i => sha256Round st (ws.getD i 0) (sha256K.getD i 0)) s
  { a := (s.a + t.a) % M32, b := (s.b + t.b) % M32, c := (s.c + t.c) % M32
    d := (s.d + t.d) % M32, e := (s.e + t.e) % M32, f := (s.f + t.f) % M32
    g := (s.g + t.g) % M32, h := (s.h + t.h) % M32 }

def beLenBytes (x : Nat) : List Nat :=
  [x >>> 56 % 256, x >>> 48 % 256, x >>> 40 % 256, x >>> 32 % 256,
   x >>> 24 % 256, x >>> 16 % 256, x >>> 8 % 256, x % 256]

def sha256Pad (msg : List Nat) : List Nat :=
  let L := msg.length
  msg ++ 0x80 :: List.replicate ((64 - (L + 9) % 64) % 64) 0 ++ beLenBytes (8 * L)

def chunks64Aux : Nat → List Nat → List (List Nat)
  | 0, _ => []
  | _, [] => []
  | fuel + 1, x :: rest => ((x :: rest).take 64) :: chunks64Aux fuel ((x :: rest).drop 64)

def chunks64 (l : List Nat) : List (List Nat) := chunks64Aux l.length l

def sha256Digest (msg : List Nat) : Sha256State :=
  (chunks64 (sha256Pad msg)).foldl sha256Compress sha256Init

def hexDigitChar (n : Nat) : Char :=
  if n < 10 then Char.ofNat (48 + n) else Char.ofNat (87 + n)

def word32hex (x : Nat) : List Char :=
  (List.range 8).map (fun i => hexDigitChar (x >>> (4 * (7 - i)) % 16))

def hexDigestChars (s : Sha256State) : List Char :=
  word32hex s.a ++ word32hex s.b ++ word32hex s.c ++ word32hex s.d
  ++ word32hex s.e ++ word32hex s.f ++ word32hex s.g ++ word32hex s.h

/-! ## UTF-8 encoding, as used by str.encode in generate_fingerprint -/

def utf8Bytes (c : Char) : List Nat :=
  let n := c.toNat
  if n < 0x80 then [n]
  else if n < 0x800 then [0xc0 + n / 64, 0x80 + n % 64]
  else if n < 0x10000 then [0xe0 + n / 4096, 0x80 + n / 64 % 64, 0x80 + n % 64]
  else [0xf0 + n / 262144, 0x80 + n / 4096 % 64, 0x80 + n / 64 % 64, 0x80 + n % 64]

def utf8Encode (s : String) : List Nat := s.data.flatMap utf8Bytes

/-! ## LocalizationProcessor.generate_fingerprint (rmmvlt.py lines 15-32)

The Python method reads no instance state and writes none; it is a pure
function of its five arguments, so it is embedded as a plain Lean
function.  Optional arguments go through str(), which renders the value
None as the four characters of the word None. -/

def pyStr : Option String → String
  | none => "None"
  | some s => s

def generate_fingerprint (text file_path context_path : String)
    (event_id map_id : Option String) : String :=
  let components := [text, file_path, context_path, pyStr event_id, pyStr map_id]
  let fingerprint_string := String.intercalate "||" components
  String.mk ((hexDigestChars (sha256Digest (utf8Encode fingerprint_string))).take 16)

/-! ## JSON documents

json.load produces nested dicts, lists, strings, numbers, booleans and
None.  Dict keys coming from a JSON file are always strings, but
patch_file can insert integer keys (it subscripts a dict with int(comp)
when a numeric path segment lands on a dict), so object keys are a
tagged sum.  Numbers are modelled as integers; float literals do not
occur in the paths or code points the claims are about. -/

inductive JKey where
  | s (v : String)
  | i (v : Nat)
deriving DecidableEq, Repr

inductive Json where
  | null
  | bool (b : Bool)
  | num (n : Int)
  | str (s : String)
  | arr (items : List Json)
  | obj (fields : List (JKey × Json))

def lookupKey : List (JKey × Json) → JKey → Option Json
  | [], _ => none
  | (k, v) :: rest, key => if k = key then some v else lookupKey rest key

/-- Python dict assignment: replace the value of an existing key in
place, to otherwise append the new binding at the end. -/
def setKey : List (JKey × Json) → JKey → Json → List (JKey × Json)
  | [], key, v => [(key, v)]
  | (k, w) :: rest, key, v =>
    if k = key then (k, v) :: rest else (k, w) :: setKey rest key v

/-! ## Path segment classification (rmmvlt.py lines 304-316)

patch_file splits the path on the dot and converts a component to int
when comp.isdigit() holds.  The paths this tool generates are ASCII, so
str.isdigit is the test that the segment is nonempty and all characters
are decimal digits, and int() is decimal parsing. -/

def isdigitStr (s : String) : Bool := !s.data.isEmpty && s.data.all Char.isDigit

/-- Decimal value of a digit string, the int() of a segment that passed
isdigit. -/
def digitsToNat (l : List Char) : Nat :=
  l.foldl (fun acc c => acc * 10 + (c.toNat - 48)) 0

def pyToNat (s : String) : Nat := digitsToNat s.data

/-- path.split of the single separator dot, per character: empty
segments are kept, as in Python. -/
def splitDotAux : List Char → List Char → List String
  | [], acc => [String.mk acc.reverse]
  | ch :: rest, acc =>
    if ch = '.' then String.mk acc.reverse :: splitDotAux rest []
    else splitDotAux rest (ch :: acc)

def splitDot (s : String) : List String := splitDotAux s.data []

/-- str.startswith, per character. -/
def listStartsWith : List Char → List Char → Bool
  | _, [] => true
  | [], _ :: _ => false
  | ch :: cs, d :: ds => ch = d && listStartsWith cs ds

def pyStartsWith (s pre : String) : Bool := listStartsWith s.data pre.data

/-- Python substring containment needle in hay, per character. -/
def listContains : List Char → List Char → Bool
  | [], needle => needle.isEmpty
  | ch :: rest, needle => listStartsWith (ch :: rest) needle || listContains rest needle

/-- The slice path[5:], per character. -/
def dropChars (s : String) (n : Nat) : String := String.mk (s.data.drop n)

/-- One step of target = target[comp] in the walk over the leading path
components (line 311).  A numeric component indexes a sequence (or is
looked up as an integer dict key, which only succeeds if an earlier
patch inserted one; a string is also a Python sequence, indexing it
yields a one-character string); a non-numeric component is a dict key
lookup.  none models the KeyError, IndexError or TypeError that aborts
patch_file. -/
def pyGet (j : Json) (comp : String) : Option Json :=
  if isdigitStr comp then
    match j with
    | .arr items => items.get? (pyToNat comp)
    | .obj fields => lookupKey fields (.i (pyToNat comp))
    | .str s => (s.data.get? (pyToNat comp)).map (fun c => .str (String.mk [c]))
    | _ => none
  else
    match j with
    | .obj fields => lookupKey fields (.s comp)
    | _ => none

/-- The final write target[last_comp] = new_text (lines 313-316).  On a
list, a numeric component must be in range (assignment never grows a
list: IndexError); on a dict, assignment inserts or overwrites the key,
an integer one when the component is numeric.  Every other target
raises (strings are immutable). -/
def pySetLast (j : Json) (comp : String) (v : Json) : Option Json :=
  if isdigitStr comp then
    match j with
    | .arr items =>
      if pyToNat comp < items.length then some (.arr (items.set (pyToNat comp) v)) else none
    | .obj fields => some (.obj (setKey fields (.i (pyToNat comp)) v))
    | _ => none
  else
    match j with
    | .obj fields => some (.obj (setKey fields (.s comp) v))
    | _ => none

/-- Applying one patch: walk the leading components, then assign at the
last one.  The Python mutates the shared tree through aliasing; the
functional embedding rebuilds the document along the walked path, which
is the same tree.  In the str branch the extracted one-character string
is a fresh immutable copy, so a deeper write never succeeds and the
original document would be returned unchanged if it did. -/
def pySet (j : Json) (comps : List String) (v : Json) : Option Json :=
  match comps with
  | [] => none
  | [c] => pySetLast j c v
  | c :: c2 :: rest =>
    if isdigitStr c then
      match j with
      | .arr items =>
        match items.get? (pyToNat c) with
        | some child => (pySet child (c2 :: rest) v).map (fun child2 => .arr (items.set (pyToNat c) child2))
        | none => none
      | .obj fields =>
        match lookupKey fields (.i (pyToNat c)) with
        | some child => (pySet child (c2 :: rest) v).map (fun child2 => .obj (setKey fields (.i (pyToNat c)) child2))
        | none => none
      | .str s =>
        match s.data.get? (pyToNat c) with
        | some ch => (pySet (.str (String.mk [ch])) (c2 :: rest) v).map (fun _ => j)
        | none => none
      | _ => none
    else
      match j with
      | .obj fields =>
        match lookupKey fields (.s c) with
        | some child => (pySet child (c2 :: rest) v).map (fun child2 => .obj (setKey fields (.s c) child2))
        | none => none
      | _ => none

/-- One iteration of the patch loop of patch_file (lines 304-316) for a
single path / replacement pair. -/
def patchOne (doc : Json) (path : String) (text : String) : Option Json :=
  pySet doc (splitDot path) (.str text)

/-- LocalizationPatcher.patch_file (lines 299-319): load the file, apply
every patch in order, save.  An exception thrown by any patch escapes
before the file is reopened for writing, so on none the file on disk
keeps its original content. -/
def patchFile (doc : Json) (patches : List (String × String)) : Option Json :=
  patches.foldlM (fun d p => patchOne d p.1 p.2) doc

/-! ## Translation map model -/

structure Context where
  file : String
  path : String
  event_id : Option String
  map_id : Option String
deriving DecidableEq, Repr

/-- Entry written by process_string (lines 42-50): original text plus
context; no translations field yet. -/
structure Entry where
  original : String
  context : Context
deriving DecidableEq, Repr

/-- Entry of a loaded strings file as the patch and import stages see it
(lines 296-297, 324-335, 504-518): same fields plus the per-language
translations object, absent modelled as the empty list. -/
structure TEntry where
  original : String
  context : Context
  translations : List (String × String)
deriving DecidableEq, Repr

/-- Insertion-ordered dict with string keys, as a Python dict:
assignment to a present key replaces the value in place, to a fresh key
appends at the end. -/
def lookupStr {α : Type} : List (String × α) → String → Option α
  | [], _ => none
  | (k, v) :: rest, key => if k = key then some v else lookupStr rest key

def setStr {α : Type} : List (String × α) → String → α → List (String × α)
  | [], key, v => [(key, v)]
  | (k, w) :: rest, key, v =>
    if k = key then (k, v) :: rest else (k, w) :: setStr rest key v

/-- LocalizationProcessor instance state: the translation_map dict and
the processed_strings set (lines 12-13).  The set is modelled as its
membership list in insertion order. -/
structure PState where
  translation_map : List (String × Entry)
  processed_strings : List String
deriving DecidableEq, Repr

def setAdd (s : List String) (x : String) : List String :=
  if x ∈ s then s else s ++ [x]

/-- LocalizationProcessor.process_string (lines 34-51). -/
def process_string (st : PState) (text file_path context_path : String)
    (event_id map_id : Option String) : PState :=
  let fingerprint := generate_fingerprint text file_path context_path event_id map_id
  { translation_map :=
      setStr st.translation_map fingerprint ⟨text, ⟨file_path, context_path, event_id, map_id⟩⟩
    processed_strings := setAdd st.processed_strings text }

/-- The fingerprint recomputed from the fields an entry stores. -/
def entryFingerprint (e : Entry) : String :=
  generate_fingerprint e.original e.context.file e.context.path e.context.event_id e.context.map_id

/-! ## Merge of one translated fingerprint (rmmvlt.py lines 510-518)

Inner loop body of excel_to_translation_map: a known fingerprint gets
its translations dict updated for the imported language (the dict is
created when absent, which the empty list already represents) and the
processed counter stepped; an unknown fingerprint only prints a warning
and steps the skipped counter, which the final summary surfaces
(lines 520-522). -/

def setTranslation (e : TEntry) (lang text : String) : TEntry :=
  { e with translations := setStr e.translations lang text }

def mergeTranslationStep (tm : List (String × TEntry)) (processed skipped : Nat)
    (fingerprint lang text : String) : List (String × TEntry) × Nat × Nat :=
  match lookupStr tm fingerprint with
  | some e => (setStr tm fingerprint (setTranslation e lang text), processed + 1, skipped)
  | none => (tm, processed, skipped + 1)

/-- The loop over the fingerprints of one spreadsheet row (lines
510-518), for a row whose translation cell is present. -/
def mergeTranslationRow (tm : List (String × TEntry)) (processed skipped : Nat)
    (fingerprints : List String) (lang text : String) : List (String × TEntry) × Nat × Nat :=
  match fingerprints with
  | [] => (tm, processed, skipped)
  | fp :: rest =>
    match mergeTranslationStep tm processed skipped fp lang text with
    | (tm2, p2, s2) => mergeTranslationRow tm2 p2 s2 rest lang text

/-! ## Patch run (rmmvlt.py lines 321-343, 641-650) -/

/-- First loop of patch_all_files (lines 324-335): group the entries
that have a translation for the requested language into
file to (context path to text), both dicts in first-seen order. -/
def addPatch (groups : List (String × List (String × String)))
    (file ctx text : String) : List (String × List (String × String)) :=
  match lookupStr groups file with
  | some ps => setStr groups file (setStr ps ctx text)
  | none => groups ++ [(file, [(ctx, text)])]

def buildFilePatches (tm : List (String × TEntry)) (lang : String) :
    List (String × List (String × String)) :=
  tm.foldl (fun groups kv =>
    match lookupStr kv.2.translations lang with
    | none => groups
    | some t => addPatch groups kv.2.context.file kv.2.context.path t) []

/-- The containment test "rmmvlt_misc.json" in file_path (line 340):
Python substring containment. -/
def strContains (hay needle : String) : Bool :=
  listContains hay.data needle.data

/-- patch_misc_file helpers (lines 345-358).  A misc document is an
object whose misc_strings field is an array of objects; item.get on
anything else would raise, so the claims about this routine are scoped
to that shape.  The id comparison item.get("id") == target_id only
matches a string id equal to the target. -/
def miscMatch (item : Json) (tid : String) : Bool :=
  match item with
  | .obj fields =>
    match lookupKey fields (.s "id") with
    | some (.str s) => decide (s = tid)
    | _ => false
  | _ => false

def miscSetText (item : Json) (v : String) : Json :=
  match item with
  | .obj fields => .obj (setKey fields (.s "text") (.str v))
  | j => j

/-- The inner for loop with break (lines 352-355): only the first item
whose id matches is updated. -/
def updateFirstMisc : List Json → String → String → List Json
  | [], _, _ => []
  | it :: rest, tid, v =>
    if miscMatch it tid then miscSetText it v :: rest
    else it :: updateFirstMisc rest tid v

/-- One iteration of the patch loop of patch_misc_file (lines 349-355).
A path that does not start with "misc." is skipped; a document without
a misc_strings array iterates the get default and changes nothing. -/
def patchMiscOne (doc : Json) (path text : String) : Json :=
  if pyStartsWith path "misc." then
    match doc with
    | .obj fields =>
      match lookupKey fields (.s "misc_strings") with
      | some (.arr items) =>
        .obj (setKey fields (.s "misc_strings") (.arr (updateFirstMisc items (dropChars path 5) text)))
      | _ => doc
    | _ => doc
  else doc

/-- LocalizationPatcher.patch_misc_file (lines 345-358): total, the file
is always rewritten. -/
def patchMiscFile (doc : Json) (patches : List (String × String)) : Json :=
  patches.foldl (fun d p => patchMiscOne d p.1 p.2) doc

/-- Second loop of patch_all_files (lines 337-343) over a model of the
project directory as a relative-path-to-document store.  patch_file and
patch_misc_file save each file as soon as it is patched, and no
exception handler surrounds the loop, so the first failing file aborts
the loop with the earlier saves kept; the Bool records whether the run
raised.  A file missing from the store is the open() that raises. -/
def patchFilesLoop (files : List (String × Json)) :
    List (String × List (String × String)) → List (String × Json) × Bool
  | [] => (files, false)
  | (fp, patches) :: rest =>
    match lookupStr files fp with
    | none => (files, true)
    | some doc =>
      if strContains fp "rmmvlt_misc.json" then
        patchFilesLoop (setStr files fp (patchMiscFile doc patches)) rest
      else
        match patchFile doc patches with
        | some doc2 => patchFilesLoop (setStr files fp doc2) rest
        | none => (files, true)

/-- patch_all_files for a loaded translation map (lines 321-343). -/
def patch_all_files (files : List (String × Json)) (tm : List (String × TEntry))
    (lang : String) : List (String × Json) × Bool :=
  patchFilesLoop files (buildFilePatches tm lang)

/-- The patch command of main (lines 641-650): patch_all_files runs
inside try/except, the handler prints the error and returns, and main
never calls sys.exit, so the interpreter exits with status 0 whether or
not the run raised. -/
def patchCommandExitCode (files : List (String × Json)) (tm : List (String × TEntry))
    (lang : String) : Nat :=
  match patch_all_files files tm lang with
  | (_, _) => 0

/-! ## Map file extraction (rmmvlt.py lines 53-96)

process_map_files walks data/MapNNN.json.  For one file the map_id is
the file stem after Map, and the arguments of each process_string call
are collected in document order.  A map document is a JSON object (this
is what RPG Maker emits and what the loop over its keys assumes);
records whose text is not a string are an error because the join inside
generate_fingerprint raises on them, and any shape the subscripts below
reject raises in Python, both modelled as none. -/

structure RecArgs where
  text : String
  file_path : String
  context_path : String
  event_id : Option String
  map_id : Option String
deriving DecidableEq, Repr

def getStr : Json → Option String
  | .str s => some s
  | _ => none

/-- The for x in data loop (lines 61-69): a record for every key equal
to displayName (a dict holds it at most once), context path
map_id.displayName. -/
def displayNameRecs (fields : List (JKey × Json)) (mapId fileRel : String) :
    Option (List RecArgs) :=
  fields.foldlM (fun acc kv =>
    if kv.1 = JKey.s "displayName" then
      (getStr kv.2).map (fun t =>
        acc ++ [⟨t, fileRel, mapId ++ ".displayName", none, some mapId⟩])
    else some acc) []

/-- One event command item (lines 80-96): code 401 records
parameters[0], code 102 records every choice of parameters[0], other
codes record nothing. -/
def extractItem (mapId fileRel : String) (eidx pidx lidx : Nat) (item : Json) :
    Option (List RecArgs) :=
  match item with
  | .obj ifields =>
    match lookupKey ifields (.s "code") with
    | none => none
    | some (.num codeN) =>
      if codeN = 401 then
        match lookupKey ifields (.s "parameters") with
        | some (.arr (p0 :: _)) =>
          (getStr p0).map (fun t =>
            [⟨t, fileRel,
              "events." ++ toString eidx ++ ".pages." ++ toString pidx
                ++ ".list." ++ toString lidx ++ ".parameters.0",
              some (toString eidx), some mapId⟩])
        | _ => none
      else if codeN = 102 then
        match lookupKey ifields (.s "parameters") with
        | some (.arr (p0 :: _)) =>
          match p0 with
          | .arr choices =>
            choices.enum.foldlM (fun acc ci =>
              (getStr ci.2).map (fun t =>
                acc ++ [⟨t, fileRel,
                  "events." ++ toString eidx ++ ".pages." ++ toString pidx
                    ++ ".list." ++ toString lidx ++ ".parameters.0." ++ toString ci.1,
                  some (toString eidx), some mapId⟩])) []
          | _ => none
        | _ => none
      else some []
    | some _ => some []
  | _ => none

/-- One page (line 79): iterate page["list"]. -/
def extractPage (mapId fileRel : String) (eidx pidx : Nat) (page : Json) :
    Option (List RecArgs) :=
  match page with
  | .obj pfields =>
    match lookupKey pfields (.s "list") with
    | some (.arr items) =>
      items.enum.foldlM (fun acc li =>
        (extractItem mapId fileRel eidx pidx li.1 li.2).map (fun rs => acc ++ rs)) []
    | _ => none
  | _ => none

/-- One event (lines 74-78): None events are skipped, otherwise iterate
event["pages"]. -/
def extractEvent (mapId fileRel : String) (eidx : Nat) (event : Json) :
    Option (List RecArgs) :=
  match event with
  | .null => some []
  | .obj efields =>
    match lookupKey efields (.s "pages") with
    | some (.arr pages) =>
      pages.enum.foldlM (fun acc pg =>
        (extractPage mapId fileRel eidx pg.1 pg.2).map (fun rs => acc ++ rs)) []
    | _ => none
  | _ => none

/-! ## Derived notions used by the statements -/

/-- Applying a list of extraction calls to a fresh processor
(LocalizationProcessor.__init__ starts with an empty map, lines
10-13). -/
def runCalls (st : PState) (calls : List RecArgs) : PState :=
  calls.foldl (fun s r => process_string s r.text r.file_path r.context_path r.event_id r.map_id) st

/-- Invariant: every key of the translation map is the fingerprint
recomputed from the fields stored in its own entry. -/
def mapKeysFingerprint (tm : List (String × Entry)) : Prop :=
  ∀ k e, lookupStr tm k = some e → k = entryFingerprint e

/-- The read-only walk over the leading path components of patch_file,
used to state when a patch fails. -/
def pyWalk (j : Json) (comps : List String) : Option Json :=
  comps.foldlM pyGet j

/-- Conditions under which the final assignment target[last_comp] =
new_text raises: an out-of-range index into a sequence, a non-numeric
key on a sequence, or any write into a scalar.  A write into a dict
never raises. -/
def lastSegFails (tgt : Json) (comp : String) : Bool :=
  if isdigitStr comp then
    match tgt with
    | .arr items => decide (items.length ≤ pyToNat comp)
    | .obj _ => false
    | _ => true
  else
    match tgt with
    | .obj _ => false
    | _ => true

/-- A path is malformed for a document when the walk over its leading
components raises or the final assignment would raise. -/
def pathFails (doc : Json) (comps : List String) : Bool :=
  match comps.getLast? with
  | none => true
  | some lastc =>
    match pyWalk doc comps.dropLast with
    | none => true
    | some tgt => lastSegFails tgt lastc

/-- Documents produced by json.load have only string object keys. -/
def strKeyed (j : Json) : Prop :=
  match j with
  | .obj fields => ∀ p ∈ fields, ∃ s, p.1 = JKey.s s
  | _ => True

/-- The process_string arguments produced for one map file (lines
56-96). -/
def process_map_file (data : Json) (mapId fileRel : String) : Option (List RecArgs) :=
  match data with
  | .obj fields => do
    let dn ← displayNameRecs fields mapId fileRel
    match lookupKey fields (.s "events") with
    | none => some dn
    | some (.arr events) => do
      let evs ← events.enum.foldlM (fun acc ev =>
        (extractEvent mapId fileRel ev.1 ev.2).map (fun rs => acc ++ rs)) []
      some (dn ++ evs)
    | some _ => none
  | _ => none

/-! # Theorems -/

/-! ## Helper lemmas -/

theorem word32hex_length (x : Nat) : (word32hex x).length = 8 := by
  simp [word32hex]

theorem hexDigestChars_length (s : Sha256State) : (hexDigestChars s).length = 64 := by
  simp [hexDigestChars, word32hex_length]

theorem generate_fingerprint_length (t f c : String) (e m : Option String) :
    (generate_fingerprint t f c e m).length = 16 := by
  show (String.mk _).length = 16
  show (List.take 16 _).length = 16
  rw [List.length_take, hexDigestChars_length]
  omega

theorem lookupStr_setStr_self {α : Type} (l : List (String × α)) (k : String) (v : α) :
    lookupStr (setStr l k v) k = some v := by
  induction l with
  | nil => simp [setStr, lookupStr]
  | cons p rest ih =>
    by_cases hp : p.1 = k <;> simp [setStr, lookupStr, hp, ih]

theorem lookupStr_setStr_ne {α : Type} (l : List (String × α)) (k k2 : String) (v : α)
    (h : k2 ≠ k) : lookupStr (setStr l k v) k2 = lookupStr l k2 := by
  induction l with
  | nil => simp [setStr, lookupStr, Ne.symm h]
  | cons p rest ih =>
    by_cases hp : p.1 = k
    · simp [setStr, lookupStr, hp, Ne.symm h]
    · simp [setStr, lookupStr, hp, ih]

theorem setStr_setStr {α : Type} (l : List (String × α)) (k : String) (v w : α) :
    setStr (setStr l k v) k w = setStr l k w := by
  induction l with
  | nil => simp [setStr]
  | cons p rest ih =>
    by_cases hp : p.1 = k <;> simp [setStr, hp, ih]

theorem keys_setStr {α : Type} (l : List (String × α)) (k : String) (v : α) :
    (setStr l k v).map Prod.fst =
      (if (lookupStr l k).isSome then l.map Prod.fst else l.map Prod.fst ++ [k]) := by
  induction l with
  | nil => simp [setStr, lookupStr]
  | cons p rest ih =>
    by_cases hp : p.1 = k
    · simp [setStr, lookupStr, hp]
    · simp [setStr, lookupStr, hp, ih]
      by_cases hl : (lookupStr rest k).isSome <;> simp [hl]

theorem setAdd_idem (s : List String) (x : String) : setAdd (setAdd s x) x = setAdd s x := by
  by_cases h : x ∈ s <;> simp [setAdd, h]

/-! ## C2: generate_fingerprint is deterministic and 16 characters long -/

/-- C2: generate_fingerprint is a pure function of its 5-tuple of
arguments (the method reads and writes no instance state, so its
embedding is a plain function and two calls with identical arguments
are the same value), and the value always has 16 characters. -/
theorem generate_fingerprint_deterministic (t f c : String) (e m : Option String) :
    generate_fingerprint t f c e m = generate_fingerprint t f c e m ∧
    (generate_fingerprint t f c e m).length = 16 :=
  ⟨rfl, generate_fingerprint_length t f c e m⟩

/-! ## C3: the absence placeholder is the string None and collides -/

/-- C3 counterexample: the claim says the fingerprint with event_id
absent differs from the one with event_id the literal string None; in
the code str(None) renders absence as exactly the four characters None,
so the two 5-tuples hash identically. -/
theorem fingerprint_none_collides :
    generate_fingerprint "Hello" "data/Map001.json" "0.name" none (some "001")
      = generate_fingerprint "Hello" "data/Map001.json" "0.name" (some "None") (some "001") := rfl

/-- C3 amended: for every text, file path, context path and other
identifier, the fingerprint computed with event_id (respectively
map_id) absent is equal to the fingerprint computed with the literal
string None there: the absence placeholder is str(None) = None and
collides with that real string value by construction. -/
theorem fingerprint_none_placeholder_eq (t f c : String) (e m : Option String) :
    generate_fingerprint t f c none m = generate_fingerprint t f c (some "None") m ∧
    generate_fingerprint t f c e none = generate_fingerprint t f c e (some "None") :=
  ⟨rfl, rfl⟩

/-! ## C7: process_string is idempotent and overwrites in place -/

/-- C7: calling process_string twice with identical arguments leaves
the whole processor state equal to calling it once; re-recording a
fingerprint leaves the lookup of every other key unchanged, stores the
freshly built entry under the fingerprint, and keeps the key sequence of
the dict unchanged when the fingerprint was already present (in-place
overwrite), appending it at the end otherwise. -/
theorem process_string_idempotent (st : PState) (t f c : String) (e m : Option String) :
    process_string (process_string st t f c e m) t f c e m = process_string st t f c e m ∧
    (∀ k, k ≠ generate_fingerprint t f c e m →
      lookupStr (process_string st t f c e m).translation_map k
        = lookupStr st.translation_map k) ∧
    lookupStr (process_string st t f c e m).translation_map (generate_fingerprint t f c e m)
      = some ⟨t, ⟨f, c, e, m⟩⟩ ∧
    (process_string st t f c e m).translation_map.map Prod.fst =
      (if (lookupStr st.translation_map (generate_fingerprint t f c e m)).isSome
       then st.translation_map.map Prod.fst
       else st.translation_map.map Prod.fst ++ [generate_fingerprint t f c e m]) := by
  refine ⟨?_, ?_, ?_, ?_⟩
  · simp [process_string, setStr_setStr, setAdd_idem]
  · intro k hk
    simp [process_string, lookupStr_setStr_ne _ _ _ _ hk]
  · simp [process_string, lookupStr_setStr_self]
  · simp [process_string, keys_setStr]

/-- C7 witness: instantiation at a fresh processor and the tuple of the
spec example; the key x is not the fingerprint because every
fingerprint has 16 characters. -/
theorem process_string_idempotent_witness :
    lookupStr (process_string ⟨[], []⟩ "Hello" "data/Map001.json" "0.name" none none).translation_map "x"
      = lookupStr (⟨[], []⟩ : PState).translation_map "x" :=
  (process_string_idempotent ⟨[], []⟩ "Hello" "data/Map001.json" "0.name" none none).2.1 "x"
    (fun h => by
      have hl := congrArg String.length h
      rw [generate_fingerprint_length] at hl
      exact absurd hl (by decide))

/-! ## C8: merging an unknown fingerprint warns and changes nothing -/

/-- C8: when a fingerprint from the spreadsheet is absent from the
translation map, the merge step leaves the map unchanged (no entry
created, none modified), leaves the processed counter unchanged, steps
the skipped counter that the summary surfaces as a warning, and the
row loop continues with the remaining fingerprints. -/
theorem merge_unknown_fingerprint (tm : List (String × TEntry)) (p s : Nat)
    (fp lang text : String) (rest : List String)
    (h : lookupStr tm fp = none) :
    mergeTranslationStep tm p s fp lang text = (tm, p, s + 1) ∧
    mergeTranslationRow tm p s (fp :: rest) lang text
      = mergeTranslationRow tm p (s + 1) rest lang text := by
  constructor
  · simp [mergeTranslationStep, h]
  · simp [mergeTranslationRow, mergeTranslationStep, h]

/-- C8 witness: a concrete one-entry map and an unknown fingerprint. -/
theorem merge_unknown_fingerprint_witness :
    mergeTranslationStep [("aaaa0000aaaa0000", ⟨"t", ⟨"f", "p", none, none⟩, []⟩)] 3 0
        "bbbb1111bbbb1111" "fr" "x"
      = ([("aaaa0000aaaa0000", ⟨"t", ⟨"f", "p", none, none⟩, []⟩)], 3, 1) :=
  (merge_unknown_fingerprint [("aaaa0000aaaa0000", ⟨"t", ⟨"f", "p", none, none⟩, []⟩)] 3 0
    "bbbb1111bbbb1111" "fr" "x" [] (by simp [lookupStr])).1

/-! ## C9: translation map keys are the fingerprints of their entries -/

theorem mapKeysFingerprint_process_string (st : PState) (t f c : String)
    (e m : Option String) (h : mapKeysFingerprint st.translation_map) :
    mapKeysFingerprint (process_string st t f c e m).translation_map := by
  intro k en hk
  by_cases hke : k = generate_fingerprint t f c e m
  · subst hke
    simp [process_string, lookupStr_setStr_self] at hk
    subst hk
    rfl
  · rw [show (process_string st t f c e m).translation_map
          = setStr st.translation_map (generate_fingerprint t f c e m) ⟨t, ⟨f, c, e, m⟩⟩ from rfl,
        lookupStr_setStr_ne _ _ _ _ hke] at hk
    exact h k en hk

/-- C9: after any sequence of process_string calls on a fresh
processor, every key of the translation map equals the fingerprint
recomputed from the fields its entry stores, so the key is recomputable
from the entry alone. -/
theorem translation_map_keys_are_fingerprints (calls : List RecArgs) :
    mapKeysFingerprint (runCalls ⟨[], []⟩ calls).translation_map := by
  have hgen : ∀ (st : PState), mapKeysFingerprint st.translation_map →
      mapKeysFingerprint (runCalls st calls).translation_map := by
    induction calls with
    | nil => intro st h; exact h
    | cons r rest ih =>
      intro st h
      exact ih _ (mapKeysFingerprint_process_string st r.text r.file_path r.context_path
        r.event_id r.map_id h)
  exact hgen ⟨[], []⟩ (by intro k en hk; simp [lookupStr] at hk)

/-! ## C1: the extract/translate/patch round trip

The round trip fails on the displayName records of process_map_files:
they are recorded at context path map_id.displayName (line 66) although
the value sits at key displayName of the document root, and patch_file
resolves context paths against the root.  The leading numeric segment
(for Map001, the segment 001, i.e. int index 1) is then used to
subscript the root dict and raises KeyError, so patching a translated
display name throws instead of producing the patched document.  Event
text at the events paths does round trip; the concrete run below
evaluates the whole pipeline at a failing input. -/

def mapDocC1 : Json := Json.obj [(JKey.s "displayName", Json.str "Town")]

def tmC1 : List (String × TEntry) :=
  [("18d85f68e0bd0c78",
    ⟨"Town", ⟨"data/Map001.json", "001.displayName", none, some "001"⟩, [("fr", "Ville")]⟩)]

/-- C1 failing run: extraction of the map document records the display
name at context path 001.displayName; with a French translation merged
for its fingerprint, the patch grouping hands exactly that path to
patch_file, which fails, so the patch run ends with the document still
untranslated and the failure flag set, and never yields a document
carrying Ville at any path. -/
theorem displayName_roundtrip_fails :
    process_map_file mapDocC1 "001" "data/Map001.json"
      = some [⟨"Town", "data/Map001.json", "001.displayName", none, some "001"⟩] ∧
    buildFilePatches tmC1 "fr" = [("data/Map001.json", [("001.displayName", "Ville")])] ∧
    patchFile mapDocC1 [("001.displayName", "Ville")] = none ∧
    patch_all_files [("data/Map001.json", mapDocC1)] tmC1 "fr"
      = ([("data/Map001.json", mapDocC1)], true) :=
  ⟨rfl, rfl, rfl, rfl⟩

/-! ## C6: one failing file aborts the whole patch run -/

def filesC6 : List (String × Json) :=
  [("A.json", Json.obj []), ("B.json", Json.obj [(JKey.s "k", Json.str "old")])]

def tmC6 : List (String × TEntry) :=
  [("aaaa2222aaaa2222", ⟨"t1", ⟨"A.json", "x.y", none, none⟩, [("fr", "ta")]⟩),
   ("bbbb3333bbbb3333", ⟨"old", ⟨"B.json", "k", none, none⟩, [("fr", "tb")]⟩)]

/-- C6 counterexample: A.json fails on its malformed path, and although
the patch of B.json would succeed, the run stops before reaching it:
B.json keeps its old content, and the process still exits with status
0.  The claim says the remaining files are still patched and the run
finishes with a non-zero status. -/
theorem patch_run_abort_counterexample :
    patch_all_files filesC6 tmC6 "fr" = (filesC6, true) ∧
    patchOne (Json.obj [(JKey.s "k", Json.str "old")]) "k" "tb"
      = some (Json.obj [(JKey.s "k", Json.str "tb")]) ∧
    patchCommandExitCode filesC6 tmC6 "fr" = 0 :=
  ⟨rfl, rfl, rfl⟩

/-- C6 amended: a malformed-path failure while patching one file aborts
the rest of the run: files patched earlier keep their saved patches, the
failing file and every later file are left as they were at that point,
and the process still completes with exit status 0 (main catches the
exception, prints it and returns; there is no per-file handler and no
non-zero exit). -/
theorem patch_failure_aborts_run (files : List (String × Json)) (fp : String)
    (patches : List (String × String)) (rest : List (String × List (String × String)))
    (doc : Json)
    (hl : lookupStr files fp = some doc)
    (hm : strContains fp "rmmvlt_misc.json" = false)
    (hf : patchFile doc patches = none) :
    patchFilesLoop files ((fp, patches) :: rest) = (files, true) ∧
    (∀ (fs : List (String × Json)) (tm : List (String × TEntry)) (lang : String),
      patchCommandExitCode fs tm lang = 0) := by
  constructor
  · simp [patchFilesLoop, hl, hm, hf]
  · intro fs tm lang
    rfl

/-- C6 amended witness: a concrete failing head of the loop. -/
theorem patch_failure_aborts_run_witness :
    patchFilesLoop [("C.json", Json.obj [])] [("C.json", [("p.q", "z")])]
      = ([("C.json", Json.obj [])], true) :=
  (patch_failure_aborts_run [("C.json", Json.obj [])] "C.json" [("p.q", "z")] []
    (Json.obj []) rfl rfl rfl).1

/-! ## C10: patch_misc_file silently ignores unmatched patches -/

theorem lookupKey_setKey_self (fields : List (JKey × Json)) (k : JKey) (v : Json)
    (h : lookupKey fields k = some v) : setKey fields k v = fields := by
  induction fields with
  | nil => simp [lookupKey] at h
  | cons pq rest ih =>
    obtain ⟨pk, pv⟩ := pq
    by_cases hp : pk = k
    · subst hp
      simp [lookupKey] at h
      simp [setKey, h]
    · simp [lookupKey, hp] at h
      simp [setKey, hp, ih h]

theorem updateFirstMisc_nomatch (items : List Json) (tid v : String)
    (h : ∀ it ∈ items, miscMatch it tid = false) :
    updateFirstMisc items tid v = items := by
  induction items with
  | nil => rfl
  | cons it rest ih =>
    simp [updateFirstMisc, h it (List.mem_cons_self it rest)]
    exact ih (fun x hx => h x (List.mem_cons_of_mem it hx))

theorem updateFirstMisc_first (pre : List Json) (item : Json) (post : List Json)
    (tid v : String)
    (hpre : ∀ it ∈ pre, miscMatch it tid = false)
    (hit : miscMatch item tid = true) :
    updateFirstMisc (pre ++ item :: post) tid v = pre ++ miscSetText item v :: post := by
  induction pre with
  | nil => simp [updateFirstMisc, hit]
  | cons q rest ih =>
    simp [updateFirstMisc, hpre q (List.mem_cons_self q rest)]
    exact ih (fun x hx => hpre x (List.mem_cons_of_mem q hx))

/-- C10: on a misc document of the shape the tool reads and writes (an
object whose misc_strings field is an array of objects; on any other
item shape the Python raises before reaching a match), a patch whose
path does not start with misc. leaves the document unchanged, a patch
whose id matches no element leaves the document unchanged with no error
signal, and when several elements share the matching id only the first
one gets its text replaced. -/
theorem misc_patch_unmatched_ignored (fields : List (JKey × Json)) (items : List Json)
    (p v : String)
    (hms : lookupKey fields (JKey.s "misc_strings") = some (Json.arr items))
    (hitems : ∀ it ∈ items, ∃ fs, it = Json.obj fs) :
    (pyStartsWith p "misc." = false → patchMiscOne (Json.obj fields) p v = Json.obj fields) ∧
    ((∀ it ∈ items, miscMatch it (dropChars p 5) = false) →
      patchMiscOne (Json.obj fields) p v = Json.obj fields) ∧
    (∀ pre item post, items = pre ++ item :: post →
      (∀ it ∈ pre, miscMatch it (dropChars p 5) = false) →
      miscMatch item (dropChars p 5) = true →
      pyStartsWith p "misc." = true →
      patchMiscOne (Json.obj fields) p v
        = Json.obj (setKey fields (JKey.s "misc_strings")
            (Json.arr (pre ++ miscSetText item v :: post)))) := by
  refine ⟨?_, ?_, ?_⟩
  · intro hns
    simp [patchMiscOne, hns]
  · intro hno
    by_cases hs : pyStartsWith p "misc." = true
    · simp [patchMiscOne, hs, hms, updateFirstMisc_nomatch items _ _ hno,
        lookupKey_setKey_self fields _ _ hms]
    · simp [patchMiscOne, hs]
  · intro pre item post hsplit hpre hit hs
    subst hsplit
    simp [patchMiscOne, hs, hms, updateFirstMisc_first pre item post _ _ hpre hit]

/-- C10 witness: a concrete misc document with a duplicate id; the
patch with an unknown id leaves the document unchanged. -/
theorem misc_patch_unmatched_ignored_witness :
    patchMiscOne (Json.obj [(JKey.s "misc_strings",
        Json.arr [Json.obj [(JKey.s "id", Json.str "t1"), (JKey.s "text", Json.str "a")]])])
        "misc.zz" "X"
      = Json.obj [(JKey.s "misc_strings",
          Json.arr [Json.obj [(JKey.s "id", Json.str "t1"), (JKey.s "text", Json.str "a")]])] :=
  (misc_patch_unmatched_ignored
    [(JKey.s "misc_strings",
      Json.arr [Json.obj [(JKey.s "id", Json.str "t1"), (JKey.s "text", Json.str "a")]])]
    [Json.obj [(JKey.s "id", Json.str "t1"), (JKey.s "text", Json.str "a")]]
    "misc.zz" "X" rfl
    (fun it hit => by
      simp at hit
      exact ⟨_, hit⟩)).2.1
    (fun it hit => by
      simp at hit
      subst hit
      rfl)

/-! ## C4: classification of path segments -/

theorem lookupKey_int_none (fields : List (JKey × Json)) (n : Nat)
    (h : ∀ p ∈ fields, ∃ s, p.1 = JKey.s s) : lookupKey fields (JKey.i n) = none := by
  induction fields with
  | nil => rfl
  | cons p rest ih =>
    obtain ⟨s, hs⟩ := h p (List.mem_cons_self p rest)
    simp [lookupKey, hs]
    exact ih (fun q hq => h q (List.mem_cons_of_mem p hq))

/-- C4 counterexample: the claim says a digit segment is used as a
sequence index at every step including the final write; on the final
write against a mapping, patch_file instead subscripts the dict with
the integer, inserting an integer key, so the digit segment acts as a
mapping key and the patch succeeds without any sequence being
indexed. -/
theorem digit_segment_written_as_mapping_key :
    patchOne (Json.obj [(JKey.s "a", Json.obj [])]) "a.0" "x"
      = some (Json.obj [(JKey.s "a", Json.obj [(JKey.i 0, Json.str "x")])]) := rfl

/-- C4 amended: on a string-keyed document node, a digit segment read
during the walk succeeds exactly by indexing a sequence (an array, or a
string as a character sequence) at its decimal value, and a non-digit
segment exactly by looking up that mapping key; at the final write a
digit segment writes a sequence element in range on an array and is
used as an integer mapping key on a mapping, while a non-digit segment
writes exactly a mapping key (created when absent). -/
theorem path_segment_classification (j : Json) (comp : String) (v : Json)
    (hk : strKeyed j) :
    (isdigitStr comp = true →
      (∀ r, pyGet j comp = some r ↔
        (∃ items, j = Json.arr items ∧ items.get? (pyToNat comp) = some r) ∨
        (∃ s ch, j = Json.str s ∧ s.data.get? (pyToNat comp) = some ch ∧
          r = Json.str (String.mk [ch]))) ∧
      (∀ out, pySetLast j comp v = some out ↔
        (∃ items, j = Json.arr items ∧ pyToNat comp < items.length ∧
          out = Json.arr (items.set (pyToNat comp) v)) ∨
        (∃ fields, j = Json.obj fields ∧
          out = Json.obj (setKey fields (JKey.i (pyToNat comp)) v)))) ∧
    (isdigitStr comp = false →
      (∀ r, pyGet j comp = some r ↔
        ∃ fields, j = Json.obj fields ∧ lookupKey fields (JKey.s comp) = some r) ∧
      (∀ out, pySetLast j comp v = some out ↔
        ∃ fields, j = Json.obj fields ∧ out = Json.obj (setKey fields (JKey.s comp) v))) := by
  constructor
  · intro hd
    constructor
    · intro r
      cases j with
      | null => simp [pyGet, hd]
      | bool b => simp [pyGet, hd]
      | num n => simp [pyGet, hd]
      | str s =>
        rcases hget : s.data[pyToNat comp]? with _ | ch
        · simp [pyGet, hd, hget]
        · simp [pyGet, hd, hget, eq_comm]
      | arr items => simp [pyGet, hd]
      | obj fields =>
        simp [pyGet, hd, lookupKey_int_none fields _ hk]
    · intro out
      cases j with
      | null => simp [pySetLast, hd]
      | bool b => simp [pySetLast, hd]
      | num n => simp [pySetLast, hd]
      | str s => simp [pySetLast, hd]
      | arr items =>
        by_cases hlen : pyToNat comp < items.length <;>
          simp [pySetLast, hd, hlen, eq_comm]
      | obj fields => simp [pySetLast, hd, eq_comm]
  · intro hd
    constructor
    · intro r
      cases j <;> simp [pyGet, hd]
    · intro out
      cases j <;> simp [pySetLast, hd, eq_comm]

/-- C4 amended witness: a digit segment reading an array element. -/
theorem path_segment_classification_witness :
    pyGet (Json.arr [Json.str "q"]) "0" = some (Json.str "q") :=
  (((path_segment_classification (Json.arr [Json.str "q"]) "0" Json.null trivial).1
    (by rfl)).1 (Json.str "q")).mpr (Or.inl ⟨[Json.str "q"], rfl, rfl⟩)

/-! ## C5: a malformed path aborts the file without saving it -/

theorem pySet_cons_none (doc : Json) (c c2 : String) (rest : List String) (v : Json) :
    (pyGet doc c = none → pySet doc (c :: c2 :: rest) v = none) ∧
    (∀ child, pyGet doc c = some child → pySet child (c2 :: rest) v = none →
      pySet doc (c :: c2 :: rest) v = none) := by
  by_cases hd : isdigitStr c
  · cases doc with
    | null => simp [pyGet, pySet, hd]
    | bool b => simp [pyGet, pySet, hd]
    | num n => simp [pyGet, pySet, hd]
    | str s =>
      rcases hget : s.data[pyToNat c]? with _ | ch <;>
        simp [pyGet, pySet, hd, hget]
    | arr items =>
      rcases hget : items[pyToNat c]? with _ | child <;>
        simp [pyGet, pySet, hd, hget]
    | obj fields =>
      rcases hget : lookupKey fields (JKey.i (pyToNat c)) with _ | child <;>
        simp [pyGet, pySet, hd, hget]
  · cases doc with
    | null => simp [pyGet, pySet, hd]
    | bool b => simp [pyGet, pySet, hd]
    | num n => simp [pyGet, pySet, hd]
    | str s => simp [pyGet, pySet, hd]
    | arr items => simp [pyGet, pySet, hd]
    | obj fields =>
      rcases hget : lookupKey fields (JKey.s c) with _ | child <;>
        simp [pyGet, pySet, hd, hget]

theorem pathFails_cons_cons (doc child : Json) (c c2 : String) (rest : List String)
    (h : pyGet doc c = some child) :
    pathFails doc (c :: c2 :: rest) = pathFails child (c2 :: rest) := by
  have hw : pyWalk doc (List.dropLast (c :: c2 :: rest))
      = pyWalk child (List.dropLast (c2 :: rest)) := by
    rw [List.dropLast_cons₂]
    show (pyGet doc c >>= fun j => pyWalk j (List.dropLast (c2 :: rest)))
      = pyWalk child (List.dropLast (c2 :: rest))
    rw [h]
    rfl
  unfold pathFails
  rw [List.getLast?_cons_cons, hw]

/-- Failure propagation: when the walk over the leading components
raises or the final assignment would raise, the whole single-path patch
raises. -/
theorem pySet_none_of_pathFails (comps : List String) :
    ∀ (doc v : Json), pathFails doc comps = true → pySet doc comps v = none := by
  induction comps with
  | nil => intro doc v _; rfl
  | cons c rest ih =>
    intro doc v hf
    cases rest with
    | nil =>
      unfold pathFails at hf
      simp [pyWalk] at hf
      by_cases hd : isdigitStr c
      · cases doc with
        | null => simp [pySet, pySetLast, hd]
        | bool b => simp [pySet, pySetLast, hd]
        | num n => simp [pySet, pySetLast, hd]
        | str s => simp [pySet, pySetLast, hd]
        | arr items =>
          simp [lastSegFails, hd] at hf
          simp [pySet, pySetLast, hd, Nat.not_lt_of_le hf]
        | obj fields =>
          simp [lastSegFails, hd] at hf
      · cases doc with
        | null => simp [pySet, pySetLast, hd]
        | bool b => simp [pySet, pySetLast, hd]
        | num n => simp [pySet, pySetLast, hd]
        | str s => simp [pySet, pySetLast, hd]
        | arr items => simp [pySet, pySetLast, hd]
        | obj fields =>
          simp [lastSegFails, hd] at hf
    | cons c2 rest2 =>
      rcases hget : pyGet doc c with _ | child
      · exact (pySet_cons_none doc c c2 rest2 v).1 hget
      · rw [pathFails_cons_cons doc child c c2 rest2 hget] at hf
        exact (pySet_cons_none doc c c2 rest2 v).2 child hget (ih child v hf)

theorem patchFile_append (doc : Json) (l1 l2 : List (String × String)) :
    patchFile doc (l1 ++ l2) = (patchFile doc l1).bind (fun d => patchFile d l2) := by
  induction l1 generalizing doc with
  | nil => rfl
  | cons p rest ih =>
    show (patchOne doc p.1 p.2).bind (fun d => patchFile d (rest ++ l2))
      = ((patchOne doc p.1 p.2).bind (fun d => patchFile d rest)).bind (fun d => patchFile d l2)
    rcases patchOne doc p.1 p.2 with _ | d
    · rfl
    · exact ih d

/-- C5 amended: if, in the state a file document has reached after some
prefix of its patches, the next path has a leading segment that does
not resolve (missing key, out-of-range index or type mismatch), or a
final segment that addresses a sequence out of range or with a
non-numeric key, or a final segment addressing a scalar, then that
patch raises (the write is not silently skipped and an out-of-range
index never grows the sequence), the whole patch_file call for that
file returns the error, and the file is not saved: a final mapping key
that is merely absent is excluded, because assignment creates it. -/
theorem patch_malformed_path_fails (doc d2 : Json) (prior : List (String × String))
    (path text : String) (rest : List (String × String))
    (h1 : patchFile doc prior = some d2)
    (h2 : pathFails d2 (splitDot path) = true) :
    patchOne d2 path text = none ∧
    patchFile doc (prior ++ (path, text) :: rest) = none := by
  have hone : patchOne d2 path text = none :=
    pySet_none_of_pathFails (splitDot path) d2 (Json.str text) h2
  refine ⟨hone, ?_⟩
  rw [patchFile_append, h1]
  show patchFile d2 ((path, text) :: rest) = none
  show (patchOne d2 path text).bind (fun d => patchFile d rest) = none
  rw [hone]
  rfl

/-- C5 counterexample: the claim quantifies over every segment,
including the final one; a final mapping key absent from the document
does not fail: the assignment creates the key, the patch succeeds and
the file is saved with the new field. -/
theorem missing_final_key_is_created :
    patchOne (Json.obj [(JKey.s "a", Json.obj [])]) "a.b" "x"
      = some (Json.obj [(JKey.s "a", Json.obj [(JKey.s "b", Json.str "x")])]) := rfl

/-- C5 amended witness: an out-of-range final index on a one-element
array fails the patch and the whole file, with a later patch pending. -/
theorem patch_malformed_path_fails_witness :
    patchOne (Json.obj [(JKey.s "a", Json.arr [Json.str "q"])]) "a.5" "x" = none ∧
    patchFile (Json.obj [(JKey.s "a", Json.arr [Json.str "q"])])
      ([] ++ ("a.5", "x") :: [("k", "v")]) = none :=
  patch_malformed_path_fails (Json.obj [(JKey.s "a", Json.arr [Json.str "q"])])
    (Json.obj [(JKey.s "a", Json.arr [Json.str "q"])]) [] "a.5" "x" [("k", "v")] rfl rfl
